import Mathlib

/-
Verification of the kv password service (kv/passwords.go).

The service orchestrates identifier encoding, user existence checks,
hashing and atomic persistence of password digests.  External
collaborators (the transactional store, the identity lookup, the
identifier encoding and the bcrypt primitive) are modelled as explicit
parameters; the store is explicit state threaded through every
operation, with transaction combinators View and Update mirroring the
read-only and atomic-write transactions of the store.
-/

deriving instance DecidableEq for Except

namespace KVPasswords

/-- Opaque user identifier (influxdb.ID, a 64-bit integer), modelled as Nat. -/
abbrev UserID := Nat

/-- Encoded storage key produced by the identifier encoding. -/
abbrev Key := Nat

/-- Digest byte sequence produced by the hashing strategy. -/
abbrev Digest := List Nat

/-- MinPasswordLength is the shortest password allowed into the system. -/
def MinPasswordLength : Nat := 8

/-- Error taxonomy of kv/passwords.go; each constructor names the source error value:
EIncorrectPassword, EIncorrectUser, EShortPassword, UnavailablePasswordServiceError,
CorruptUserIDError, InternalPasswordHashError. -/
inductive Err where
  | incorrectPassword
  | incorrectUser
  | shortPassword
  | unavailable
  | corruptUserID
  | internalHash
  deriving DecidableEq, Repr

/-- Crypt represents a cryptographic hashing function: GenerateFromPassword returns
the digest of the password at the given cost (none on failure), CompareHashAndPassword
verifies a plaintext against a digest (true means the nil error of the source). -/
structure Crypt where
  generateFromPassword : String → Int → Option Digest
  compareHashAndPassword : Digest → String → Bool

/-- Modelled from the spec: the external bcrypt primitive
(golang.org/x/crypto/bcrypt), an abstract generate and verify pair that the
Bcrypt adapter wraps; the adaptive hashing internals are outside the core. -/
structure BcryptPrim where
  gen : String → Int → Option Digest
  cmp : Digest → String → Bool

/-- Minimum cost accepted by the bcrypt primitive (bcrypt.MinCost = 4). -/
def bcryptMinCost : Int := 4

/-- DefaultCost is the cost that will actually be set if a cost below MinCost
is passed into GenerateFromPassword (bcrypt.DefaultCost = 10). -/
def DefaultCost : Int := 10

/-- Bcrypt.GenerateFromPassword: if the cost given is less than MinCost, the cost
is set to DefaultCost instead; the primitive then runs at the resulting cost. -/
def Bcrypt.GenerateFromPassword (prim : BcryptPrim) (password : String) (cost : Int) :
    Option Digest :=
  let c := if cost < bcryptMinCost then DefaultCost else cost
  prim.gen password c

/-- Bcrypt.CompareHashAndPassword delegates verification to the primitive. -/
def Bcrypt.CompareHashAndPassword (prim : BcryptPrim) (hashed : Digest)
    (password : String) : Bool :=
  prim.cmp hashed password

/-- The Crypt value backed by the bcrypt primitive (type Bcrypt of the source). -/
def bcryptCrypt (prim : BcryptPrim) : Crypt where
  generateFromPassword := Bcrypt.GenerateFromPassword prim
  compareHashAndPassword := Bcrypt.CompareHashAndPassword prim

/-- The state visible to the service: the userspasswordv1 bucket contents as an
association list from encoded key to digest, plus an availability flag for the
external store; when avail is false, Tx.Bucket (and hence Get and Put) fails. -/
structure Store where
  avail : Bool
  creds : List (Key × Digest)
  deriving DecidableEq, Repr

/-- Overwrite-or-insert of a key in the bucket, the behaviour of Bucket.Put. -/
def putAssoc : List (Key × Digest) → Key → Digest → List (Key × Digest)
  | [], k, v => [(k, v)]
  | (k1, v1) :: rest, k, v =>
      if k1 = k then (k, v) :: rest else (k1, v1) :: putAssoc rest k v

/-- A read-only transaction (kv.View): the body observes the store, which is
returned unchanged. -/
def View (st : Store) (f : Store → Except Err α) : Store × Except Err α :=
  (st, f st)

/-- An atomic write transaction (kv.Update): when the body fails, the
transaction rolls back and the store is unchanged. -/
def Update (st : Store) (f : Store → Store × Except Err α) : Store × Except Err α :=
  match f st with
  | (st1, Except.ok a) => (st1, Except.ok a)
  | (_, Except.error e) => (st, Except.error e)

/-- The password service. Hash is the optional pluggable hasher field; bcrypt is
the external primitive used when Hash is nil. Modelled from the spec: findUserByID
is the external identity lookup FindUserByID, consulted inside the transaction and
reduced to whether resolution succeeds; encodeID is the external identifier
encoding (a stable serialization that can fail, failure being corruption). -/
structure Service where
  Hash : Option Crypt
  bcrypt : BcryptPrim
  findUserByID : UserID → Bool
  encodeID : UserID → Option Key

/-- The hasher the service uses: the Hash field, defaulting to Bcrypt when nil. -/
def Service.hasher (s : Service) : Crypt :=
  s.Hash.getD (bcryptCrypt s.bcrypt)

/-- Body of the read-only transaction of getPasswordHash: encode the identifier
(failure is CorruptUserIDError), resolve the user (failure is EIncorrectUser),
open the bucket (failure is UnavailablePasswordServiceError), read the digest
(failure is EIncorrectPassword). -/
def getPasswordHashBody (s : Service) (stv : Store) (userID : UserID) :
    Except Err Digest :=
  match s.encodeID userID with
  | none => Except.error Err.corruptUserID
  | some encodedID =>
    if s.findUserByID userID then
      if stv.avail then
        match stv.creds.lookup encodedID with
        | none => Except.error Err.incorrectPassword
        | some h => Except.ok h
      else Except.error Err.unavailable
    else Except.error Err.incorrectUser

/-- getPasswordHash reads the stored digest inside a read-only transaction. -/
def getPasswordHash (s : Service) (st : Store) (userID : UserID) :
    Store × Except Err Digest :=
  View st (fun stv => getPasswordHashBody s stv userID)

/-- compareUserPassword reads the digest, then verifies the candidate plaintext;
a verification failure maps to EIncorrectPassword. -/
def compareUserPassword (s : Service) (st : Store) (userID : UserID)
    (password : String) : Store × Except Err Unit :=
  match getPasswordHash s st userID with
  | (st1, Except.error e) => (st1, Except.error e)
  | (st1, Except.ok passwordHash) =>
    let hasher := s.hasher
    if hasher.compareHashAndPassword passwordHash password then
      (st1, Except.ok ())
    else
      (st1, Except.error Err.incorrectPassword)

/-- ComparePassword checks if the password matches the password recorded. -/
def ComparePassword (s : Service) (st : Store) (userID : UserID)
    (password : String) : Store × Except Err Unit :=
  compareUserPassword s st userID password

/-- setPasswordHashTx writes the digest inside an already-open write transaction:
encode, resolve the user, open the bucket, put. -/
def setPasswordHashTx (s : Service) (stv : Store) (userID : UserID) (hash : Digest) :
    Store × Except Err Unit :=
  match s.encodeID userID with
  | none => (stv, Except.error Err.corruptUserID)
  | some encodedID =>
    if s.findUserByID userID then
      if stv.avail then
        ({ stv with creds := putAssoc stv.creds encodedID hash }, Except.ok ())
      else (stv, Except.error Err.unavailable)
    else (stv, Except.error Err.incorrectUser)

/-- setPasswordHash opens one atomic write transaction around setPasswordHashTx. -/
def setPasswordHash (s : Service) (st : Store) (userID : UserID) (hash : Digest) :
    Store × Except Err Unit :=
  Update st (fun stv => setPasswordHashTx s stv userID hash)

/-- generatePasswordHash validates the minimum length (failure is EShortPassword)
then hashes at DefaultCost (failure is InternalPasswordHashError). -/
def generatePasswordHash (s : Service) (password : String) : Except Err Digest :=
  if password.length < MinPasswordLength then
    Except.error Err.shortPassword
  else
    let hasher := s.hasher
    match hasher.generateFromPassword password DefaultCost with
    | none => Except.error Err.internalHash
    | some hash => Except.ok hash

/-- SetPassword overrides the password of a known user: hash first, then persist. -/
def SetPassword (s : Service) (st : Store) (userID : UserID) (password : String) :
    Store × Except Err Unit :=
  match generatePasswordHash s password with
  | Except.error e => (st, Except.error e)
  | Except.ok hash => setPasswordHash s st userID hash

/-- CompareAndSetPassword hashes the new password, checks the old one, and only
then updates to the new digest. -/
def CompareAndSetPassword (s : Service) (st : Store) (userID : UserID)
    (old new : String) : Store × Except Err Unit :=
  match generatePasswordHash s new with
  | Except.error e => (st, Except.error e)
  | Except.ok newHash =>
    match compareUserPassword s st userID old with
    | (st1, Except.error e) => (st1, Except.error e)
    | (st1, Except.ok _) => setPasswordHash s st1 userID newHash

/-- Iterated ComparePassword, each call running on the store left by the previous. -/
def iterateCompare (s : Service) (u : UserID) (w : String) :
    Nat → Store → Store × Except Err Unit
  | 0, st => ComparePassword s st u w
  | n + 1, st => iterateCompare s u w n (ComparePassword s st u w).fst

/-- A concrete hashing strategy for concrete evaluations: the digest is the list
of character codes of the plaintext, verification is digest equality. -/
def exCrypt : Crypt where
  generateFromPassword := fun p _ => some (p.data.map Char.toNat)
  compareHashAndPassword := fun h p => h == p.data.map Char.toNat

/-- A concrete bcrypt primitive: refuses costs below the minimum, otherwise
hashes like exCrypt. -/
def exPrim : BcryptPrim where
  gen := fun p c => if c < bcryptMinCost then none else some (p.data.map Char.toNat)
  cmp := fun h p => h == p.data.map Char.toNat

/-- A concrete service: user 1 exists, identifier 0 fails to encode, every
other identifier encodes to itself. -/
def exService : Service where
  Hash := some exCrypt
  bcrypt := exPrim
  findUserByID := fun u => u == 1
  encodeID := fun u => if u == 0 then none else some u

/-- An available store holding no credential records. -/
def exStore : Store where
  avail := true
  creds := []

/-- The digest exCrypt produces for the plaintext password1. -/
def exDigest : Digest := "password1".data.map Char.toNat

/-- An available store where user 1 has the digest of password1 recorded. -/
def exStore1 : Store where
  avail := true
  creds := [(1, exDigest)]

/-- A successful generatePasswordHash implies the plaintext met the minimum length. -/
theorem generatePasswordHash_ok_length {s : Service} {p : String} {dig : Digest}
    (hg : generatePasswordHash s p = Except.ok dig) :
    MinPasswordLength ≤ p.length := by
  unfold generatePasswordHash at hg
  by_cases hl : p.length < MinPasswordLength
  · simp [hl] at hg
  · exact Nat.le_of_not_lt hl

/-- compareUserPassword never changes the store: it only opens a read-only
transaction. -/
theorem compareUserPassword_fst (s : Service) (st : Store) (u : UserID)
    (p : String) : (compareUserPassword s st u p).fst = st := by
  unfold compareUserPassword getPasswordHash View
  cases hb : getPasswordHashBody s st u <;> simp [hb]
  split <;> rfl

/-- When setPasswordHash leaves the store changed, the user was resolved
successfully inside the transaction. -/
theorem setPasswordHash_ne_findUser {s : Service} {st : Store} {u : UserID}
    {dig : Digest} (hne : (setPasswordHash s st u dig).fst ≠ st) :
    s.findUserByID u = true := by
  unfold setPasswordHash Update setPasswordHashTx at hne
  cases he : s.encodeID u with
  | none => simp [he] at hne
  | some k =>
    by_cases hu : s.findUserByID u
    · exact hu
    · simp [he, hu] at hne

/-- Reading back the key just written by putAssoc returns the new digest. -/
theorem lookup_putAssoc_self (l : List (Key × Digest)) (k : Key) (v : Digest) :
    (putAssoc l k v).lookup k = some v := by
  induction l with
  | nil => simp [putAssoc, List.lookup]
  | cons hd tl ih =>
    obtain ⟨k1, v1⟩ := hd
    by_cases hk : k1 = k
    · subst hk
      simp [putAssoc, List.lookup]
    · have hne : (k == k1) = false := by simp [Ne.symm hk]
      simp [putAssoc, hk, List.lookup, hne, ih]

/-- C4: for every plaintext shorter than the minimum length (8), SetPassword and
CompareAndSetPassword (on its new-password argument) return EShortPassword and
leave the store completely unmutated. -/
theorem short_password_rejected (s : Service) (st : Store) (u : UserID)
    (old p : String) (h : p.length < MinPasswordLength) :
    SetPassword s st u p = (st, Except.error Err.shortPassword) ∧
    CompareAndSetPassword s st u old p = (st, Except.error Err.shortPassword) := by
  constructor
  · unfold SetPassword generatePasswordHash
    simp [h]
  · unfold CompareAndSetPassword generatePasswordHash
    simp [h]

/-- Witness for C4 at a concrete short plaintext. -/
theorem short_password_rejected_witness :
    SetPassword exService exStore 1 "pw" = (exStore, Except.error Err.shortPassword) ∧
    CompareAndSetPassword exService exStore 1 "old" "pw" =
      (exStore, Except.error Err.shortPassword) :=
  short_password_rejected exService exStore 1 "old" "pw" (by decide)

/-- C10: CompareAndSetPassword validates and hashes the new plaintext before any
check of the old password: with a new plaintext shorter than 8 it returns
EShortPassword for every store and every old plaintext, even when the user does
not exist. -/
theorem compareAndSet_short_new_first (s : Service) (st : Store) (u : UserID)
    (old new : String) (_hu : s.findUserByID u = false)
    (h : new.length < MinPasswordLength) :
    CompareAndSetPassword s st u old new = (st, Except.error Err.shortPassword) := by
  unfold CompareAndSetPassword generatePasswordHash
  simp [h]

/-- Witness for C10: a nonexistent user and a wrong old password still yield
EShortPassword when the new plaintext is short. -/
theorem compareAndSet_short_new_first_witness :
    CompareAndSetPassword exService exStore 2 "whatever" "pw" =
      (exStore, Except.error Err.shortPassword) :=
  compareAndSet_short_new_first exService exStore 2 "whatever" "pw" (by decide)
    (by decide)

/-- C8: the Bcrypt adapter silently substitutes DefaultCost for every cost below
the primitive minimum (and DefaultCost is at least that minimum, so the cost is
never lowered below it and no error arises from a too-low cost); costs at or
above the minimum are passed through unchanged. -/
theorem bcrypt_cost_clamping (prim : BcryptPrim) (p : String) (cost : Int) :
    (cost < bcryptMinCost →
      Bcrypt.GenerateFromPassword prim p cost = prim.gen p DefaultCost ∧
      bcryptMinCost ≤ DefaultCost) ∧
    (bcryptMinCost ≤ cost →
      Bcrypt.GenerateFromPassword prim p cost = prim.gen p cost) := by
  constructor
  · intro hlt
    refine ⟨?_, by norm_num [bcryptMinCost, DefaultCost]⟩
    unfold Bcrypt.GenerateFromPassword
    simp [hlt]
  · intro hge
    unfold Bcrypt.GenerateFromPassword
    simp [Int.not_lt.mpr hge]

/-- Witness for C8 at costs 0 (below the minimum) and 12 (above it). -/
theorem bcrypt_cost_clamping_witness :
    Bcrypt.GenerateFromPassword exPrim "password1" 0 = exPrim.gen "password1" DefaultCost ∧
    Bcrypt.GenerateFromPassword exPrim "password1" 12 = exPrim.gen "password1" 12 :=
  ⟨((bcrypt_cost_clamping exPrim "password1" 0).1 (by decide)).1,
   (bcrypt_cost_clamping exPrim "password1" 12).2 (by decide)⟩

/-- C9: ComparePassword runs only inside a read-only transaction and never
writes, and when it fails, any number of repeated calls give the same failure
and leave the store exactly as it was. -/
theorem comparePassword_no_mutation (s : Service) (st : Store) (u : UserID)
    (w : String) (e : Err) (n : Nat) :
    (ComparePassword s st u w).fst = st ∧
    ((ComparePassword s st u w).snd = Except.error e →
      iterateCompare s u w n st = (st, Except.error e)) := by
  refine ⟨compareUserPassword_fst s st u w, ?_⟩
  intro hsnd
  induction n with
  | zero =>
    show ComparePassword s st u w = (st, Except.error e)
    have h1 : (ComparePassword s st u w).fst = st := compareUserPassword_fst s st u w
    calc ComparePassword s st u w
        = ((ComparePassword s st u w).fst, (ComparePassword s st u w).snd) := rfl
      _ = (st, Except.error e) := by rw [h1, hsnd]
  | succ m ih =>
    show iterateCompare s u w m (ComparePassword s st u w).fst = (st, Except.error e)
    have h1 : (ComparePassword s st u w).fst = st := compareUserPassword_fst s st u w
    rw [h1]
    exact ih

/-- Witness for C9: three repeated failing compares on a concrete store. -/
theorem comparePassword_no_mutation_witness :
    (ComparePassword exService exStore 1 "wrongpass1").fst = exStore ∧
    iterateCompare exService 1 "wrongpass1" 3 exStore =
      (exStore, Except.error Err.incorrectPassword) :=
  ⟨(comparePassword_no_mutation exService exStore 1 "wrongpass1"
      Err.incorrectPassword 3).1,
   (comparePassword_no_mutation exService exStore 1 "wrongpass1"
      Err.incorrectPassword 3).2 rfl⟩

/-- C2: a credential digest is written (the store changes) by SetPassword or
CompareAndSetPassword only if, within that operation, the owning user was
resolved successfully and the hashed plaintext had at least the minimum length. -/
theorem digest_written_only_validated (s : Service) (st : Store) (u : UserID)
    (old p : String) :
    ((SetPassword s st u p).fst ≠ st →
      s.findUserByID u = true ∧ MinPasswordLength ≤ p.length) ∧
    ((CompareAndSetPassword s st u old p).fst ≠ st →
      s.findUserByID u = true ∧ MinPasswordLength ≤ p.length) := by
  constructor
  · intro hne
    cases hg : generatePasswordHash s p with
    | error e =>
      unfold SetPassword at hne
      simp [hg] at hne
    | ok dig =>
      unfold SetPassword at hne
      simp only [hg] at hne
      exact ⟨setPasswordHash_ne_findUser hne, generatePasswordHash_ok_length hg⟩
  · intro hne
    cases hg : generatePasswordHash s p with
    | error e =>
      unfold CompareAndSetPassword at hne
      simp [hg] at hne
    | ok dig =>
      unfold CompareAndSetPassword at hne
      simp only [hg] at hne
      rcases hc : compareUserPassword s st u old with ⟨st1, r⟩
      have hst1 : st1 = st := by
        have h1 := compareUserPassword_fst s st u old
        rw [hc] at h1
        exact h1
      rw [hc] at hne
      cases r with
      | error e =>
        subst hst1
        simp at hne
      | ok a =>
        subst hst1
        simp only at hne
        exact ⟨setPasswordHash_ne_findUser hne, generatePasswordHash_ok_length hg⟩

/-- Witness for C2: a store-changing SetPassword call implies the user exists
and the plaintext is long enough. -/
theorem digest_written_only_validated_witness :
    exService.findUserByID 1 = true ∧ MinPasswordLength ≤ "password1".length :=
  (digest_written_only_validated exService exStore 1 "old" "password1").1 (by decide)

/-- C7: SetPassword computes the digest before resolving the user: with a
length-valid plaintext whose digest is computed, a user that fails resolution
yields EIncorrectUser, and any failure of the hashing stage is returned as is,
independent of whether the user exists. -/
theorem setPassword_unknown_user (s : Service) (st : Store) (u : UserID)
    (p : String) (k : Key) (dig : Digest) (e : Err) :
    (MinPasswordLength ≤ p.length →
      s.hasher.generateFromPassword p DefaultCost = some dig →
      s.encodeID u = some k → s.findUserByID u = false →
      SetPassword s st u p = (st, Except.error Err.incorrectUser)) ∧
    (generatePasswordHash s p = Except.error e →
      SetPassword s st u p = (st, Except.error e)) := by
  constructor
  · intro hlen hgen hk hu
    unfold SetPassword generatePasswordHash setPasswordHash Update setPasswordHashTx
    simp [Nat.not_lt.mpr hlen, hgen, hk, hu]
  · intro hg
    unfold SetPassword
    simp [hg]

/-- Witness for C7: user 2 does not exist, so a valid plaintext yields
EIncorrectUser while a short plaintext yields EShortPassword first. -/
theorem setPassword_unknown_user_witness :
    SetPassword exService exStore 2 "password1" =
      (exStore, Except.error Err.incorrectUser) ∧
    SetPassword exService exStore 2 "short" =
      (exStore, Except.error Err.shortPassword) :=
  ⟨(setPassword_unknown_user exService exStore 2 "password1" 2 exDigest
      Err.shortPassword).1 (by decide) rfl rfl (by decide),
   (setPassword_unknown_user exService exStore 2 "short" 2 exDigest
      Err.shortPassword).2 (by decide)⟩

/-- C5: when the old-password check fails, CompareAndSetPassword returns an
error and performs no write: the store is unchanged and a subsequent
ComparePassword behaves exactly as before the call. -/
theorem compareAndSet_wrong_old_no_write (s : Service) (st : Store) (u : UserID)
    (old new q : String) (e : Err)
    (h : (compareUserPassword s st u old).snd = Except.error e) :
    (CompareAndSetPassword s st u old new).fst = st ∧
    (∃ e2, (CompareAndSetPassword s st u old new).snd = Except.error e2) ∧
    ComparePassword s (CompareAndSetPassword s st u old new).fst u q =
      ComparePassword s st u q := by
  have hfull : compareUserPassword s st u old = (st, Except.error e) := by
    have h1 := compareUserPassword_fst s st u old
    calc compareUserPassword s st u old
        = ((compareUserPassword s st u old).fst,
           (compareUserPassword s st u old).snd) := rfl
      _ = (st, Except.error e) := by rw [h1, h]
  cases hg : generatePasswordHash s new with
  | error e3 =>
    unfold CompareAndSetPassword
    simp [hg]
  | ok nh =>
    unfold CompareAndSetPassword
    simp [hg, hfull]

/-- Witness for C5: a wrong old password on a store holding a credential for
user 1 leaves everything unchanged. -/
theorem compareAndSet_wrong_old_no_write_witness :
    (CompareAndSetPassword exService exStore1 1 "wrongpass1" "newpassword1").fst =
      exStore1 ∧
    (∃ e2, (CompareAndSetPassword exService exStore1 1 "wrongpass1"
      "newpassword1").snd = Except.error e2) ∧
    ComparePassword exService
      (CompareAndSetPassword exService exStore1 1 "wrongpass1" "newpassword1").fst
      1 "password1" =
      ComparePassword exService exStore1 1 "password1" :=
  compareAndSet_wrong_old_no_write exService exStore1 1 "wrongpass1"
    "newpassword1" "password1" Err.incorrectPassword (by decide)

/-- The digest exCrypt produces for the plaintext newpassword1. -/
def exDigestNew : Digest := "newpassword1".data.map Char.toNat

/-- C3: for an existing user and a plaintext p of valid length, a successful
SetPassword is followed by a succeeding ComparePassword on p, and by a failure
with EIncorrectPassword on any plaintext q the hasher rejects against the
stored digest (in particular any q that does not match p). -/
theorem setPassword_roundtrip (s : Service) (st : Store) (u : UserID)
    (p q : String) (k : Key) (dig : Digest)
    (hu : s.findUserByID u = true) (hk : s.encodeID u = some k)
    (hav : st.avail = true) (hlen : MinPasswordLength ≤ p.length)
    (hgen : s.hasher.generateFromPassword p DefaultCost = some dig)
    (hp : s.hasher.compareHashAndPassword dig p = true)
    (hq : s.hasher.compareHashAndPassword dig q = false) :
    ∃ st1, SetPassword s st u p = (st1, Except.ok ()) ∧
      (ComparePassword s st1 u p).snd = Except.ok () ∧
      (ComparePassword s st1 u q).snd = Except.error Err.incorrectPassword := by
  refine ⟨{ st with creds := putAssoc st.creds k dig }, ?_, ?_, ?_⟩
  · unfold SetPassword generatePasswordHash setPasswordHash Update setPasswordHashTx
    simp [Nat.not_lt.mpr hlen, hgen, hk, hu, hav]
  · unfold ComparePassword compareUserPassword getPasswordHash View getPasswordHashBody
    simp [hk, hu, hav, lookup_putAssoc_self, hp]
  · unfold ComparePassword compareUserPassword getPasswordHash View getPasswordHashBody
    simp [hk, hu, hav, lookup_putAssoc_self, hq]

/-- Witness for C3 with user 1 on the empty available store. -/
theorem setPassword_roundtrip_witness :
    ∃ st1, SetPassword exService exStore 1 "password1" = (st1, Except.ok ()) ∧
      (ComparePassword exService st1 1 "password1").snd = Except.ok () ∧
      (ComparePassword exService st1 1 "wrongpass1").snd =
        Except.error Err.incorrectPassword :=
  setPassword_roundtrip exService exStore 1 "password1" "wrongpass1" 1 exDigest
    (by decide) rfl rfl (by decide) rfl (by decide) (by decide)

/-- C6: for an existing user with a stored digest matching old, a valid new
plaintext whose digest rejects old and accepts new, CompareAndSetPassword
succeeds and afterwards ComparePassword fails on old and succeeds on new. -/
theorem compareAndSet_success (s : Service) (st : Store) (u : UserID)
    (old new : String) (k : Key) (oldH newH : Digest)
    (hu : s.findUserByID u = true) (hk : s.encodeID u = some k)
    (hav : st.avail = true)
    (hstored : st.creds.lookup k = some oldH)
    (hvold : s.hasher.compareHashAndPassword oldH old = true)
    (hlen : MinPasswordLength ≤ new.length)
    (hgen : s.hasher.generateFromPassword new DefaultCost = some newH)
    (hvnew : s.hasher.compareHashAndPassword newH new = true)
    (hvno : s.hasher.compareHashAndPassword newH old = false) :
    ∃ st1, CompareAndSetPassword s st u old new = (st1, Except.ok ()) ∧
      (ComparePassword s st1 u old).snd = Except.error Err.incorrectPassword ∧
      (ComparePassword s st1 u new).snd = Except.ok () := by
  refine ⟨{ st with creds := putAssoc st.creds k newH }, ?_, ?_, ?_⟩
  · unfold CompareAndSetPassword generatePasswordHash compareUserPassword
      getPasswordHash View getPasswordHashBody setPasswordHash Update
      setPasswordHashTx
    simp [Nat.not_lt.mpr hlen, hgen, hk, hu, hav, hstored, hvold]
  · unfold ComparePassword compareUserPassword getPasswordHash View getPasswordHashBody
    simp [hk, hu, hav, lookup_putAssoc_self, hvno]
  · unfold ComparePassword compareUserPassword getPasswordHash View getPasswordHashBody
    simp [hk, hu, hav, lookup_putAssoc_self, hvnew]

/-- Witness for C6: user 1 changes password1 to newpassword1. -/
theorem compareAndSet_success_witness :
    ∃ st1, CompareAndSetPassword exService exStore1 1 "password1" "newpassword1" =
        (st1, Except.ok ()) ∧
      (ComparePassword exService st1 1 "password1").snd =
        Except.error Err.incorrectPassword ∧
      (ComparePassword exService st1 1 "newpassword1").snd = Except.ok () :=
  compareAndSet_success exService exStore1 1 "password1" "newpassword1" 1
    exDigest exDigestNew (by decide) rfl rfl (by decide) (by decide) (by decide)
    rfl (by decide) (by decide)

/-- C1 (amended): during ComparePassword the absence of a credential record, a
failed digest read, and a verification mismatch all collapse to
EIncorrectPassword, but user-resolution failure yields the distinct error
EIncorrectUser and identifier-encoding failure yields CorruptUserIDError. -/
theorem comparePassword_error_mapping (s : Service) (st : Store) (u : UserID)
    (p : String) (k : Key) (dig : Digest) :
    (s.encodeID u = none →
      (ComparePassword s st u p).snd = Except.error Err.corruptUserID) ∧
    (s.encodeID u = some k → s.findUserByID u = false →
      (ComparePassword s st u p).snd = Except.error Err.incorrectUser) ∧
    (s.encodeID u = some k → s.findUserByID u = true → st.avail = true →
      st.creds.lookup k = none →
      (ComparePassword s st u p).snd = Except.error Err.incorrectPassword) ∧
    (s.encodeID u = some k → s.findUserByID u = true → st.avail = true →
      st.creds.lookup k = some dig →
      s.hasher.compareHashAndPassword dig p = false →
      (ComparePassword s st u p).snd = Except.error Err.incorrectPassword) := by
  refine ⟨?_, ?_, ?_, ?_⟩
  · intro hk
    unfold ComparePassword compareUserPassword getPasswordHash View getPasswordHashBody
    simp [hk]
  · intro hk hu
    unfold ComparePassword compareUserPassword getPasswordHash View getPasswordHashBody
    simp [hk, hu]
  · intro hk hu hav hnone
    unfold ComparePassword compareUserPassword getPasswordHash View getPasswordHashBody
    simp [hk, hu, hav, hnone]
  · intro hk hu hav hsome hcmp
    unfold ComparePassword compareUserPassword getPasswordHash View getPasswordHashBody
    simp [hk, hu, hav, hsome, hcmp]

/-- Witness for the amended C1: an unencodable identifier maps to
CorruptUserIDError and a verification mismatch maps to EIncorrectPassword. -/
theorem comparePassword_error_mapping_witness :
    (ComparePassword exService exStore 0 "password1").snd =
      Except.error Err.corruptUserID ∧
    (ComparePassword exService exStore1 1 "wrongpass1").snd =
      Except.error Err.incorrectPassword :=
  ⟨(comparePassword_error_mapping exService exStore 0 "password1" 0 exDigest).1
     rfl,
   (comparePassword_error_mapping exService exStore1 1 "wrongpass1" 1
     exDigest).2.2.2 rfl (by decide) rfl (by decide) (by decide)⟩

/-- Counterexample for C1 as stated: for a user that fails resolution,
ComparePassword returns EIncorrectUser, which is not the single outward error
EIncorrectPassword the claim requires for all four causes. -/
theorem comparePassword_unknownUser_distinct :
    (ComparePassword exService exStore 2 "password1").snd =
      Except.error Err.incorrectUser ∧
    (ComparePassword exService exStore 2 "password1").snd ≠
      Except.error Err.incorrectPassword := by
  constructor
  · rfl
  · decide

end KVPasswords
